import Mathlib

/-!
Verification development for the SOL next-day-high prediction service
(FastAPI app, preprocessing and fetch modules).

The embedding mirrors, function by function:
* `preprocessing/feature_engineering.py` — `ensure_time_and_sort`, `_ema`,
  `_sma`, `build_features_from_ohlcv`, `FINAL_FEATURES`;
* `app/main.py` — `_prepare_features`, `_invert_prediction`, `_to_utc`,
  the `predict` endpoint body and the anchor-window portion of
  `predict_sol_at`;
* `fetch/kraken_ohlc_solusd.py` (both textual definitions of
  `get_recent_candles`) and `fetch/sol_fetch.py`.

Numeric columns are modelled over `ℚ` (Python floats with exact
arithmetic); a missing value (pandas `NaN` from an absent `volume` or an
out-of-range lag/shift) is `Option.none`.  `np.exp` is an external numeric
routine and is threaded through as an explicit function parameter, so every
definition stays computable.
-/

namespace SolPredict

instance {ε : Type u} {α : Type v} [DecidableEq ε] [DecidableEq α] :
    DecidableEq (Except ε α) := fun x y =>
  match x, y with
  | .ok a, .ok b => decidable_of_iff (a = b) (by simp)
  | .ok _, .error _ => isFalse (by simp)
  | .error _, .ok _ => isFalse (by simp)
  | .error e, .error f => decidable_of_iff (e = f) (by simp)

/-- Day within the 400-year Gregorian era containing the day `z` days after
1970-01-01 (Hinnant's civil-from-days conversion, the calendar arithmetic
implemented by the datetime libraries the source calls through
`pandas.Series.dt.month`). -/
def doeOfDays (z : ℤ) : ℕ := ((z + 719468) % 146097).toNat

/-- Year within the era of a day-of-era. -/
def yoeOfDoe (doe : ℕ) : ℕ :=
  (doe - doe / 1460 + doe / 36524 - doe / 146096) / 365

/-- Day within the year of a day-of-era. -/
def doyOfDoe (doe : ℕ) : ℕ :=
  doe - (365 * yoeOfDoe doe + yoeOfDoe doe / 4 - yoeOfDoe doe / 100)

/-- Shifted month (0 = March .. 11 = February) of a day-of-era. -/
def mpOfDoe (doe : ℕ) : ℕ := (5 * doyOfDoe doe + 2) / 153

/-- Month (1..12) of the civil date that lies `z` days after 1970-01-01. -/
def civilMonthOfDays (z : ℤ) : ℕ :=
  if mpOfDoe (doeOfDays z) < 10 then mpOfDoe (doeOfDays z) + 3
  else mpOfDoe (doeOfDays z) - 9

/-- Month of a wall-clock timestamp counted in seconds since the epoch. -/
def monthOfEpochSec (s : ℤ) : ℕ := civilMonthOfDays (s / 86400)

theorem doeOfDays_le (z : ℤ) : doeOfDays z ≤ 146096 := by
  have h1 : (z + 719468) % 146097 < 146097 := Int.emod_lt_of_pos _ (by norm_num)
  have h2 : 0 ≤ (z + 719468) % 146097 := Int.emod_nonneg _ (by norm_num)
  unfold doeOfDays
  omega

theorem doyOfDoe_le (doe : ℕ) (h : doe ≤ 146096) : doyOfDoe doe ≤ 365 := by
  unfold doyOfDoe yoeOfDoe
  rcases Nat.lt_or_ge doe 36524 with h1 | h1
  · have h2 : doe / 36524 = 0 := by omega
    have h3 : doe / 146096 = 0 := by omega
    rw [h2, h3]; omega
  rcases Nat.lt_or_ge doe 73048 with h1b | h1b
  · have h2 : doe / 36524 = 1 := by omega
    have h3 : doe / 146096 = 0 := by omega
    rw [h2, h3]; omega
  rcases Nat.lt_or_ge doe 109572 with h1c | h1c
  · have h2 : doe / 36524 = 2 := by omega
    have h3 : doe / 146096 = 0 := by omega
    rw [h2, h3]; omega
  rcases Nat.lt_or_ge doe 146096 with h1d | h1d
  · have h2 : doe / 36524 = 3 := by omega
    have h3 : doe / 146096 = 0 := by omega
    rw [h2, h3]
    have hy1 : 300 ≤ (doe - doe / 1460 + 3 - 0) / 365 := by omega
    have hy2 : (doe - doe / 1460 + 3 - 0) / 365 ≤ 399 := by omega
    have hc : ((doe - doe / 1460 + 3 - 0) / 365) / 100 = 3 := by omega
    rw [hc]; omega
  · have h2 : doe = 146096 := by omega
    subst h2; omega

/-- The civil month is always between 1 and 12. -/
theorem civilMonthOfDays_mem (z : ℤ) :
    1 ≤ civilMonthOfDays z ∧ civilMonthOfDays z ≤ 12 := by
  have hdoy : doyOfDoe (doeOfDays z) ≤ 365 := doyOfDoe_le _ (doeOfDays_le z)
  have hmp : mpOfDoe (doeOfDays z) ≤ 11 := by unfold mpOfDoe; omega
  unfold civilMonthOfDays
  by_cases h : mpOfDoe (doeOfDays z) < 10 <;> simp only [h, if_true, if_false] <;> omega

/-- The month attached by normalization is always between 1 and 12. -/
theorem monthOfEpochSec_mem (s : ℤ) :
    1 ≤ monthOfEpochSec s ∧ monthOfEpochSec s ≤ 12 :=
  civilMonthOfDays_mem _

/-- A parsed timestamp as pandas represents it: the wall-clock reading in
seconds since the epoch together with an optional UTC offset in seconds
(`none` = timezone-naive, `some 0` = an explicit "Z"/UTC suffix). -/
structure PdDatetime where
  wall : ℤ
  tz : Option ℤ
deriving DecidableEq

/-- The instant a timestamp denotes once interpreted in UTC: naive wall
clocks are read as UTC, aware ones are shifted by their offset.  This is the
value produced by `pd.to_datetime(..., utc=True)`. -/
def PdDatetime.utcInstant (d : PdDatetime) : ℤ := d.wall - d.tz.getD 0

/-- One cell of a pandas time column: either still the raw ISO-string
content of the request (`str`) or an already-parsed datetime value (`dt`).
Parsing maps both to `dt` with the same content, which lets the embedding
observe the in-place dtype change `ensure_time_and_sort` performs on its
caller's column. -/
inductive TimeCell where
  | str (d : PdDatetime)
  | dt (d : PdDatetime)
deriving DecidableEq

/-- Parsed content of a time cell. -/
def TimeCell.d : TimeCell → PdDatetime
  | .str d => d
  | .dt d => d

/-- One row of the OHLCV DataFrame the endpoints build
(`pd.DataFrame([c.dict() for c in req.candles])`): required float columns
`open, high, low, close`, the nullable `volume` column, the `timeOpen`
column, and the `month` column (`none` until `ensure_time_and_sort` adds
it). -/
structure Row where
  timeOpen : TimeCell
  «open» : ℚ
  high : ℚ
  low : ℚ
  close : ℚ
  volume : Option ℚ
  month : Option ℕ
deriving DecidableEq

instance : Inhabited Row :=
  ⟨{ timeOpen := .dt ⟨0, none⟩, «open» := 0, high := 0, low := 0, close := 0,
     volume := none, month := none }⟩

/-- Failure of the pandas calls inside normalization. -/
inductive PdError where
  | mixedTimezones
deriving DecidableEq

/-- Modelled behaviour of `pd.to_datetime(column)` WITHOUT `utc=True`, as
called by `ensure_time_and_sort` (feature_engineering.py line 41): each cell
is parsed; naive cells stay naive and aware cells keep their offset, so the
column is usable only when all cells carry the same timezone tag.  When
naive and aware values (or distinct offsets) are mixed, the call chain
fails: recent pandas raises "Cannot mix tz-aware with tz-naive values"
here, and older pandas returns an object column on which the subsequent
`sort_values` comparison raises `TypeError`.  Either way the request dies,
recorded as `PdError.mixedTimezones`. -/
def toDatetimeNoUtc (cells : List TimeCell) : Except PdError (List TimeCell) :=
  match cells with
  | [] => .ok []
  | c :: rest =>
    if rest.all fun x => decide (x.d.tz = c.d.tz) then
      .ok ((c :: rest).map fun x => TimeCell.dt x.d)
    else
      .error .mixedTimezones

/-- Modelled behaviour of `pd.to_datetime(column, utc=True)` (used by
`predict_sol_at`, main.py lines 266 and 270, and by the per-kind branches of
the unused helper `_to_utc`, lines 150-154): every cell becomes the UTC
instant it denotes, naive cells being localized to UTC and aware cells
converted. -/
def toDatetimeUtc (cells : List TimeCell) : List TimeCell :=
  cells.map fun c => TimeCell.dt { wall := c.d.utcInstant, tz := some 0 }

/-- Sort key of a time cell inside a uniformly-tagged parsed column: naive
values compare by wall clock, aware values by instant. -/
def keyOf (r : Row) : ℤ := r.timeOpen.d.utcInstant

/-- Comparison of rows by time key. -/
def rowLEP (a b : Row) : Prop := keyOf a ≤ keyOf b

instance : DecidableRel rowLEP := fun a b => by
  unfold rowLEP; infer_instance

instance : IsTotal Row rowLEP := ⟨fun a b => le_total (keyOf a) (keyOf b)⟩

instance : IsTrans Row rowLEP := ⟨fun _ _ _ hab hbc => le_trans hab hbc⟩

/-- Contract of `DataFrame.sort_values(time_col)` under the library default
`kind="quicksort"` (numpy introsort): the result is some permutation of the
frame whose key column is non-decreasing.  The numpy and pandas
documentation guarantees nothing about the relative order of equal keys for
this kind (only `kind="stable"`/`"mergesort"` are stable), so the embedding
is parametric in the implementation, constrained exactly by the documented
contract. -/
def SortValuesOk (impl : List Row → List Row) : Prop :=
  ∀ l : List Row, (impl l).Perm l ∧ (impl l).Pairwise fun a b => keyOf a ≤ keyOf b

/-- Stable sort by the time key (insertion sort, which preserves the input
order of equal keys): one valid `sort_values` implementation, the one the
deterministic executable model runs on. -/
def sortValuesTime (l : List Row) : List Row := List.insertionSort rowLEP l

theorem sortValuesTime_ok : SortValuesOk sortValuesTime := by
  intro l
  exact ⟨List.perm_insertionSort rowLEP l, List.sorted_insertionSort rowLEP l⟩

/-- Overwrite a row's time cell with its parsed value (the effect on the
caller's frame of the line `df[time_col] = pd.to_datetime(df[time_col])`). -/
def parseTimeCell (r : Row) : Row := { r with timeOpen := .dt r.timeOpen.d }

/-- Attach the derived calendar month (`df["month"] = df[time_col].dt.month`,
feature_engineering.py line 46); `.dt.month` reads the wall clock of the
column's own timezone. -/
def attachMonth (r : Row) : Row :=
  { r with month := some (monthOfEpochSec r.timeOpen.d.wall) }

/-- Embedding of `ensure_time_and_sort` (feature_engineering.py lines
27-47), parametric in the `sort_values` implementation.  Value returned is
the pair (result frame, caller's frame after the call): the function first
overwrites the caller's `timeOpen` column in place with the parsed
datetimes (line 41 assigns `df[time_col] = pd.to_datetime(df[time_col])` on
the very object it was given), then rebinds `df` to a new sorted frame and
attaches the `month` column to that new frame only (lines 45-46).  The call
sites always pass a frame that has a `timeOpen` column, so the fallback
branch for a missing time column (lines 36-40) is never taken, and no call
site passes `group_by`, so the grouped sort (lines 42-43) is dead. -/
def ensureTimeAndSortWith (impl : List Row → List Row) (df : List Row) :
    Except PdError (List Row × List Row) :=
  match toDatetimeNoUtc (df.map fun r => r.timeOpen) with
  | .error e => .error e
  | .ok _ =>
    let callerDf := df.map parseTimeCell
    .ok ((impl callerDf).map attachMonth, callerDf)

/-- The executable `ensure_time_and_sort` model, running on the stable
sort implementation. -/
def ensure_time_and_sort (df : List Row) : Except PdError (List Row × List Row) :=
  ensureTimeAndSortWith sortValuesTime df

/-- FINAL_FEATURES (feature_engineering.py lines 8-17): the exact feature
order expected by the model. -/
def FINAL_FEATURES : List String :=
  ["close", "open", "low",
   "close_ema3", "low_ema3",
   "open_sma3", "open_sma7",
   "high_lag1", "high_lag2",
   "low_lag1", "low_lag2",
   "close_lag3",
   "volume", "volume_sma21",
   "month"]

/-- Tail of the recursive exponential moving average: from the previous
smoothed value, each new raw value enters with weight `a`. -/
def emaFrom (a : ℚ) (prev : ℚ) : List ℚ → List ℚ
  | [] => []
  | x :: xs => ((1 - a) * prev + a * x) :: emaFrom a ((1 - a) * prev + a * x) xs

/-- Embedding of `_ema` (feature_engineering.py lines 50-51):
`series.ewm(span=span, adjust=False).mean()`, the zero-look-ahead
exponential moving average with weight `2/(span+1)`, seeded with the first
element. -/
def _ema (xs : List ℚ) (span : ℕ) : List ℚ :=
  match xs with
  | [] => []
  | x :: rest => x :: emaFrom (2 / ((span : ℚ) + 1)) x rest

/-- Embedding of `_sma` (feature_engineering.py lines 54-55):
`series.rolling(window, min_periods=1).mean()`.  At position `i` pandas
averages the non-missing values among the last `min(window, i+1)` entries
and yields a missing value only when that window holds no value at all
(`min_periods=1`). -/
def _sma (xs : List (Option ℚ)) (window : ℕ) : List (Option ℚ) :=
  (List.range xs.length).map fun i =>
    let vals := ((xs.take (i + 1)).drop (i + 1 - window)).filterMap id
    if vals.length = 0 then none else some (vals.sum / vals.length)

/-- Embedding of `Series.shift(k)`: the first `k` positions become missing,
later positions take the value from `k` rows earlier. -/
def pdShift (k : ℕ) (xs : List ℚ) : List (Option ℚ) :=
  List.replicate (min k xs.length) none ++ (xs.take (xs.length - k)).map some

/-- One row of the feature frame produced by `build_features_from_ohlcv`:
the normalized OHLCV columns plus every derived feature column.  A missing
value (pandas NaN from an absent volume or an out-of-range lag) is `none`;
`month` keeps the integer dtype pandas gives it. -/
structure FeatRow where
  timeOpen : TimeCell
  «open» : ℚ
  high : ℚ
  low : ℚ
  close : ℚ
  volume : Option ℚ
  month : Option ℕ
  close_ema3 : ℚ
  low_ema3 : ℚ
  open_sma3 : Option ℚ
  open_sma7 : Option ℚ
  volume_sma21 : Option ℚ
  high_lag1 : Option ℚ
  high_lag2 : Option ℚ
  low_lag1 : Option ℚ
  low_lag2 : Option ℚ
  close_lag3 : Option ℚ
deriving DecidableEq

/-- Embedding of `build_features_from_ohlcv` (feature_engineering.py lines
60-89).  The OHLC columns are always present in the frames the call sites
build, so the missing-column guard (lines 64-66) is never taken; the frame
is re-normalized through `ensure_time_and_sort` (line 68, a no-op mutation
on the already-parsed column), then the EMA, SMA and lag columns are
assigned.  The `volume` column always exists at the call sites (nullable),
so line 78 computes `volume_sma21` with the rolling mean. -/
def build_features_from_ohlcv (df : List Row) : Except PdError (List FeatRow) :=
  match ensure_time_and_sort df with
  | .error e => .error e
  | .ok (sorted, _) =>
    let closes := sorted.map fun r => r.close
    let opens := sorted.map fun r => r.«open»
    let lows := sorted.map fun r => r.low
    let highs := sorted.map fun r => r.high
    let vols := sorted.map fun r => r.volume
    let cEma := _ema closes 3
    let lEma := _ema lows 3
    let oSma3 := _sma (opens.map some) 3
    let oSma7 := _sma (opens.map some) 7
    let vSma21 := _sma vols 21
    let hL1 := pdShift 1 highs
    let hL2 := pdShift 2 highs
    let lL1 := pdShift 1 lows
    let lL2 := pdShift 2 lows
    let cL3 := pdShift 3 closes
    .ok ((List.range sorted.length).map fun i =>
      let r := sorted.getD i default
      { timeOpen := r.timeOpen, «open» := r.«open», high := r.high,
        low := r.low, close := r.close, volume := r.volume, month := r.month,
        close_ema3 := cEma.getD i 0, low_ema3 := lEma.getD i 0,
        open_sma3 := oSma3.getD i none, open_sma7 := oSma7.getD i none,
        volume_sma21 := vSma21.getD i none,
        high_lag1 := hL1.getD i none, high_lag2 := hL2.getD i none,
        low_lag1 := lL1.getD i none, low_lag2 := lL2.getD i none,
        close_lag3 := cL3.getD i none })

/-- Value of one named feature column of a feature row, as a nullable
float (the integer `month` column is read as its numeric value).  Models
reading column `name` of the feature frame. -/
def featValue (r : FeatRow) (name : String) : Option ℚ :=
  if name = "close" then some r.close
  else if name = "open" then some r.«open»
  else if name = "low" then some r.low
  else if name = "close_ema3" then some r.close_ema3
  else if name = "low_ema3" then some r.low_ema3
  else if name = "open_sma3" then r.open_sma3
  else if name = "open_sma7" then r.open_sma7
  else if name = "high_lag1" then r.high_lag1
  else if name = "high_lag2" then r.high_lag2
  else if name = "low_lag1" then r.low_lag1
  else if name = "low_lag2" then r.low_lag2
  else if name = "close_lag3" then r.close_lag3
  else if name = "volume" then r.volume
  else if name = "volume_sma21" then r.volume_sma21
  else if name = "month" then r.month.map fun m => (m : ℚ)
  else none

/-- Selection `df_feat[FINAL_FEATURES]` of one row: the 15 published
columns in their published order. -/
def selectFinalFeatures (r : FeatRow) : List (String × Option ℚ) :=
  FINAL_FEATURES.map fun name => (name, featValue r name)

/-- Test of `dropna(subset=FINAL_FEATURES)` for one row: the row is kept
when none of the 15 selected fields is missing. -/
def usableRow (r : FeatRow) : Bool :=
  (selectFinalFeatures r).all fun p => p.2.isSome

/-- Embedding of `_prepare_features` (main.py lines 132-135): build the
feature frame, drop every row with a missing value in any of the 15 final
features, and select those columns in published order. -/
def _prepare_features (df : List Row) :
    Except PdError (List (List (String × Option ℚ))) :=
  match build_features_from_ohlcv df with
  | .error e => .error e
  | .ok feat => .ok ((feat.filter usableRow).map selectFinalFeatures)

/-- Python's `str.lower`, character by character (the mode strings are
ASCII). -/
def pyLower (s : String) : String := ⟨s.data.map Char.toLower⟩

/-- Python's `str.upper`, character by character (the token strings are
ASCII). -/
def pyUpper (s : String) : String := ⟨s.data.map Char.toUpper⟩

/-- Python's `token.replace("-", "")`: drop every dash. -/
def pyStripDashes (s : String) : String := ⟨s.data.filter fun c => c ≠ '-'⟩

/-- A Python float as `np.isfinite` classifies it: a finite value or one of
the non-finite IEEE values. -/
inductive PyFloat where
  | fin (x : ℚ)
  | nan
  | posInf
  | negInf
deriving DecidableEq

/-- Modelled `np.isfinite`. -/
def PyFloat.isFinite : PyFloat → Bool
  | .fin _ => true
  | _ => false

/-- Numeric value of a finite Python float (0 on the non-finite values,
which every use site shields behind the isfinite guard). -/
def PyFloat.val : PyFloat → ℚ
  | .fin x => x
  | _ => 0

/-- Decode-stage failures of `_invert_prediction`, distinguished by the
HTTPException detail they raise with: `inversionError` carries
"Cannot invert prediction without a valid last high." (line 142) and
`unsupportedMode` carries "Unknown target mode: ..." (line 147). -/
inductive InvertError where
  | inversionError
  | unsupportedMode (mode : String)
deriving DecidableEq

/-- Embedding of `_invert_prediction` (main.py lines 138-147), parametric
in the external exponential routine `expf` standing for `np.exp`.  Note the
guard order of the source: the `last_high` validity check (line 141) runs
before the `delta`/`logdiff` dispatch and before the unknown-mode failure
(line 147). -/
def _invert_prediction (expf : ℚ → ℚ) (yhatRaw : ℚ) (lastHigh : Option PyFloat)
    (mode : String) : Except InvertError ℚ :=
  if mode = "level" then .ok yhatRaw
  else
    match lastHigh with
    | none => .error .inversionError
    | some lh =>
      if ¬ lh.isFinite then .error .inversionError
      else if mode = "delta" then .ok (lh.val + yhatRaw)
      else if mode = "logdiff" then .ok (expf yhatRaw * lh.val)
      else .error (.unsupportedMode mode)

/-- Test for an absent or non-finite `last_high` (the guard of main.py line
141). -/
def lastHighInvalid (lkh : Option PyFloat) : Bool :=
  match lkh with
  | none => true
  | some x => ! x.isFinite

/-- Failures surfaced by the `predict` endpoint as HTTP errors, tagged by
raise site. -/
inductive ApiError where
  | tooFewCandles
  | pandas (e : PdError)
  | noUsableRows
  | decode (e : InvertError)
deriving DecidableEq

/-- The response body of `POST /predict` (main.py lines 187-193). -/
structure PredictResponse where
  predicted_high_next_day : ℚ
  target_mode : String
  last_known_high : Option ℚ
  features_used : List String
  feature_vector_tail : List (String × Option ℚ)
deriving DecidableEq

/-- Embedding of the `predict` endpoint body (main.py lines 159-193),
parametric in the configured default target mode (`MODEL_TARGET_MODE`), the
external model capability (`model.predict` on a single feature row, taken
total here; the end-to-end claim exercises it with a stub) and `np.exp`.
The required OHLC columns always exist in the frame built from the pydantic
`Candle` model, so the missing-column rejection (lines 167-169) is never
taken.  The `df.getLast?` fallback mirrors `df["high"].iloc[-1]` (line
174), reachable only on a non-empty frame since at least 21 candles were
required. -/
def predict (expf : ℚ → ℚ) (defaultMode : String)
    (model : List (String × Option ℚ) → ℚ)
    (candles : List Row) (targetMode : Option String) :
    Except ApiError PredictResponse :=
  let mode := pyLower (targetMode.getD defaultMode)
  if candles.length < 21 then .error .tooFewCandles
  else
    match ensure_time_and_sort candles with
    | .error e => .error (.pandas e)
    | .ok (df, _) =>
      match df.getLast? with
      | none => .error .tooFewCandles
      | some lastRow =>
        let lastHigh := lastRow.high
        match _prepare_features df with
        | .error e => .error (.pandas e)
        | .ok x =>
          match x.getLast? with
          | none => .error .noUsableRows
          | some xTail =>
            let yhatRaw := model xTail
            match _invert_prediction expf yhatRaw (some (.fin lastHigh)) mode with
            | .error e => .error (.decode e)
            | .ok yhat =>
              .ok { predicted_high_next_day := yhat, target_mode := mode,
                    last_known_high := some lastHigh,
                    features_used := FINAL_FEATURES,
                    feature_vector_tail := xTail }

/-- Window-resolution failures of `GET /predict/sol/at`, tagged by raise
site: `noDataBeforeAnchor` is the 404 "No candles at or before the
requested date." and `insufficientHistory` the 400 "Insufficient history
before the requested date (need >= 21 rows)." -/
inductive WindowError where
  | noDataBeforeAnchor
  | insufficientHistory
deriving DecidableEq

/-- Embedding of the anchor-window step of `predict_sol_at` (main.py lines
264-277): both sides are made UTC-aware (`ts = pd.to_datetime(df["timeOpen"],
utc=True)` and the anchor parsed with `utc=True`), so each row is compared
through the UTC instant `keyOf` it denotes; the rows at or before the
anchor are kept, with the 404 when there are none and the 400 when fewer
than 21 remain. -/
def window_at_or_before (df : List Row) (anchor : ℤ) :
    Except WindowError (List Row) :=
  let cut := df.filter fun r => decide (keyOf r ≤ anchor)
  if cut.isEmpty then .error .noDataBeforeAnchor
  else if cut.length < 21 then .error .insufficientHistory
  else .ok cut

/-- One raw OHLC row of a Kraken response payload
(`[time, open, high, low, close, vwap, volume, count]`): each consumed
field is recorded as the result of the int()/float() conversion the
fetchers apply to it (`none` when the conversion raises or the index is
out of range). -/
structure KrakenRawRow where
  time : Option ℤ
  «open» : Option ℚ
  high : Option ℚ
  low : Option ℚ
  close : Option ℚ
  volume : Option ℚ
deriving DecidableEq

/-- One output dict of the fetchers.  Its `timeOpen` is the UTC epoch
second behind the ISO string `_iso_from_epoch` renders: the fixed-width
ISO-8601 UTC rendering is strictly monotone and injective in the epoch
second over the representable range, so ordering and equality of the
strings coincide with those of the integers. -/
structure FetchedCandle where
  timeOpen : ℤ
  «open» : ℚ
  high : ℚ
  low : ℚ
  close : ℚ
  volume : ℚ
deriving DecidableEq

/-- The per-row conversion both fetchers perform (kraken_ohlc_solusd.py
lines 144-153, sol_fetch.py lines 51-59): epoch time from `row[0]`, floats
from `row[1..4]` and `row[6]`; it succeeds exactly when every conversion
does. -/
def parseKrakenRow (row : KrakenRawRow) : Option FetchedCandle := do
  let t ← row.time
  let o ← row.«open»
  let h ← row.high
  let l ← row.low
  let c ← row.close
  let v ← row.volume
  some { timeOpen := t, «open» := o, high := h, low := l, close := c,
         volume := v }

/-- Python's slice `rows[-n:]` for an arbitrary integer `n`: the last `n`
elements when `n` is positive, and the suffix starting at index `-n` when
`n ≤ 0` (so `n = 0` keeps the whole list). -/
def pySliceLast (l : List α) (n : ℤ) : List α :=
  if 0 < n then l.drop (l.length - n.toNat)
  else l.drop (-n).toNat

/-- Comparison of fetched candles by time. -/
def candleLEP (a b : FetchedCandle) : Prop := a.timeOpen ≤ b.timeOpen

instance : DecidableRel candleLEP := fun a b => by
  unfold candleLEP; infer_instance

/-- Embedding of `out.sort(key=lambda d: d["timeOpen"])`: Python's
`list.sort` is a stable sort by the ISO timestamp string, whose order
coincides with the epoch-second order. -/
def sortByTimeOpen (l : List FetchedCandle) : List FetchedCandle :=
  List.insertionSort candleLEP l

/-- Failures raised by the fetchers around mapping the payload rows,
tagged by raise site. -/
inductive FetchError where
  | unsupportedInterval (interval : ℤ)
  | unsupportedToken
  | noRows
  | malformedRow
deriving DecidableEq

/-- The Kraken interval whitelist `_ALLOWED_INTERVALS`
(kraken_ohlc_solusd.py line 23). -/
def _ALLOWED_INTERVALS : List ℤ := [1, 5, 15, 30, 60, 240, 1440, 10080]

/-- The alias table `_PAIR_ALIASES` (kraken_ohlc_solusd.py lines 14-18),
textually identical to `_ALLOWED` (sol_fetch.py line 11). -/
def pairAlias (t : String) : Option String :=
  if t = "SOL" then some "SOLUSD"
  else if t = "SOLUSD" then some "SOLUSD"
  else if t = "SOLUSDT" then some "SOLUSDT"
  else none

/-- Embedding of `_kraken_pair` (kraken_ohlc_solusd.py lines 80-85) and of
the textually identical `_norm_token` (sol_fetch.py lines 14-18): `none`
models the "Only Solana is supported" ValueError. -/
def _kraken_pair (token : String) : Option String :=
  pairAlias (pyUpper (pyStripDashes token))

/-- Embedding of the FIRST textual definition of `get_recent_candles`
(kraken_ohlc_solusd.py lines 25-77): the `n <= 0` early return, the
interval whitelist check (lines 28-29), the token validation, and the
mapping of the already-retrieved payload rows (malformed rows silently
skipped by the try/except, line 73-74).  The network transport and the
payload-key resolution, textually identical in every fetcher version, are
factored out by passing the resolved OHLC row list directly. -/
def get_recent_candles_def1 (token : String) (n : ℤ) (interval : ℤ)
    (rows : List KrakenRawRow) : Except FetchError (List FetchedCandle) :=
  if n ≤ 0 then .ok []
  else if interval ∈ _ALLOWED_INTERVALS then
    match _kraken_pair token with
    | none => .error .unsupportedToken
    | some _ =>
      if rows.isEmpty then .error .noRows
      else .ok (sortByTimeOpen ((pySliceLast rows n).filterMap parseKrakenRow))
  else .error (.unsupportedInterval interval)

/-- Embedding of the SECOND textual definition of `get_recent_candles`
(kraken_ohlc_solusd.py lines 92-160).  Python executes both `def`
statements of the module in order, so this later binding rebinds the name:
it is the function the module exports and the one `app.main` imports as
`fetch_candles`.  It accepts any `interval` without validation (the value
is only forwarded as a query parameter); malformed rows are silently
skipped (lines 154-156). -/
def kraken_get_recent_candles (token : String) (n : ℤ) (_interval : ℤ)
    (rows : List KrakenRawRow) : Except FetchError (List FetchedCandle) :=
  if n ≤ 0 then .ok []
  else
    match _kraken_pair token with
    | none => .error .unsupportedToken
    | some _ =>
      if rows.isEmpty then .error .noRows
      else .ok (sortByTimeOpen ((pySliceLast rows n).filterMap parseKrakenRow))

/-- The accumulation loop of sol_fetch (lines 49-59): convert each sliced
row in order, failing on the first row whose conversion raises. -/
def mapOrFail (f : α → Option β) : List α → Option (List β)
  | [] => some []
  | a :: l =>
    match f a with
    | none => none
    | some b => (mapOrFail f l).map fun bs => b :: bs

/-- Embedding of `get_recent_candles` of sol_fetch.py (lines 25-62): the
same pipeline but with no `n <= 0` early return and no try/except around
the row conversions, so the first malformed row propagates as an
exception (`malformedRow`). -/
def sol_get_recent_candles (token : String) (n : ℤ) (_interval : ℤ)
    (rows : List KrakenRawRow) : Except FetchError (List FetchedCandle) :=
  match _kraken_pair token with
  | none => .error .unsupportedToken
  | some _ =>
    if rows.isEmpty then .error .noRows
    else
      match mapOrFail parseKrakenRow (pySliceLast rows n) with
      | none => .error .malformedRow
      | some out => .ok (sortByTimeOpen out)

/-!
Concrete test data for the claims.  Concrete evaluations use `decide`;
the arithmetic of `ℚ` is made unfoldable for them in this section.
-/

section ConcreteEvaluation

attribute [local semireducible] Rat.add Rat.mul Rat.sub Rat.inv Rat.ofScientific

/-- A well-formed daily candle: naive timestamp at day `i`, monotonically
increasing prices, constant volume. -/
def mkDailyCandle (i : ℕ) : Row :=
  { timeOpen := .str ⟨(i : ℤ) * 86400, none⟩, «open» := 10 + i,
    high := 100 + i, low := 5 + i, close := 15 + i, volume := some 5,
    month := none }

/-- A series of `n` well-formed daily candles in ascending order. -/
def dailySeries (n : ℕ) : List Row := (List.range n).map mkDailyCandle

/-!
Claim C1 — minimum history for feature building.
-/

/-- C1, counterexample: with all moving averages computed under
`min_periods=1`, a series of 20 well-formed candles does NOT yield zero
usable rows after dropping incomplete ones, and a series of 21 does not
yield exactly one. -/
theorem claim_C1_counterexample :
    ¬ ((_prepare_features (dailySeries 20)).toOption.map List.length = some 0
       ∧ (_prepare_features (dailySeries 21)).toOption.map List.length = some 1) := by
  decide

/-- C1, amended: feature building followed by dropping incomplete rows
keeps every row from index 3 on (only the three lag columns
`high_lag1/2`, `low_lag1/2`, `close_lag3` can be missing on a well-formed
series, since every SMA/EMA uses `min_periods=1`), so 20 well-formed
candles yield 17 usable rows, 21 candles yield 18, and the true minimum
history for one usable row is 4 candles: 3 candles yield zero usable rows
and 4 yield one. -/
theorem claim_C1_min_history :
    (_prepare_features (dailySeries 20)).toOption.map List.length = some 17
    ∧ (_prepare_features (dailySeries 21)).toOption.map List.length = some 18
    ∧ (_prepare_features (dailySeries 3)).toOption.map List.length = some 0
    ∧ (_prepare_features (dailySeries 4)).toOption.map List.length = some 1 := by
  decide

/-!
Claim C3 — timezone uniformity of normalization.
-/

/-- A candle with a timezone-naive timestamp denoting midnight of
1970-01-02 (UTC reading). -/
def c3naive : Row :=
  { timeOpen := .str ⟨86400, none⟩, «open» := 1, high := 2, low := 1,
    close := 1, volume := some 1, month := none }

/-- A candle whose timestamp denotes the same instant with an explicit
UTC ("Z") offset. -/
def c3aware : Row :=
  { timeOpen := .str ⟨86400, some 0⟩, «open» := 1, high := 2, low := 1,
    close := 1, volume := some 1, month := none }

/-- C3, code bug: `ensure_time_and_sort` parses with `pd.to_datetime`
WITHOUT `utc=True` (feature_engineering.py line 41), so an input mixing a
naive and an explicit-UTC timestamp that denote the same instant is not
normalized to identical canonical values — the call chain dies instead
(`mixedTimezones`).  The uniform-UTC treatment the spec describes (and the
unused helper `_to_utc` plus the call-site comment "Force UTC-awareness"
in main.py intend) maps both cells to the same UTC instant. -/
theorem claim_C3_timezone_bug :
    ensure_time_and_sort [c3naive, c3aware] = .error .mixedTimezones
    ∧ (toDatetimeUtc [c3naive.timeOpen, c3aware.timeOpen]).map (fun c => c.d)
        = [⟨86400, some 0⟩, ⟨86400, some 0⟩]
    ∧ c3naive.timeOpen.d.utcInstant = c3aware.timeOpen.d.utcInstant := by
  decide

/-!
Claim C5 — decode equations.
-/

/-- C5: for every finite `last_known_high` and raw model output, decoding
returns the raw output under `level`, `last_known_high + raw` under
`delta`, and `exp(raw) * last_known_high` under `logdiff` (with `exp` the
external exponential the code calls as `np.exp`). -/
theorem claim_C5_decode_equations (expf : ℚ → ℚ) (raw lkh : ℚ) :
    _invert_prediction expf raw (some (.fin lkh)) "level" = .ok raw
    ∧ _invert_prediction expf raw (some (.fin lkh)) "delta" = .ok (lkh + raw)
    ∧ _invert_prediction expf raw (some (.fin lkh)) "logdiff"
        = .ok (expf raw * lkh) := by
  refine ⟨rfl, ?_, ?_⟩ <;>
    simp [_invert_prediction, PyFloat.isFinite, PyFloat.val]

/-!
Claim C6 — decode failure conditions.
-/

/-- C6, counterexample: an unknown mode does NOT always fail with the
unsupported-mode error — when `last_known_high` is absent, the
`last_high` guard (main.py line 141) fires first and the call fails with
the inversion error instead. -/
theorem claim_C6_counterexample :
    _invert_prediction id 0 none "weird" = .error .inversionError
    ∧ _invert_prediction id 0 none "weird"
        ≠ .error (.unsupportedMode "weird") := by
  decide

/-- C6, amended: decoding under `delta` or `logdiff` with `last_known_high`
absent or non-finite fails with the inversion error; `level` never needs
`last_known_high`; a mode outside the three known encodings fails with the
unsupported-mode error PROVIDED `last_known_high` is present and finite —
when it is absent or non-finite, any non-`level` mode (the unknown ones
included) fails with the inversion error, which takes precedence. -/
theorem claim_C6_decode_failures (expf : ℚ → ℚ) (raw : ℚ) (mode : String)
    (lkh : Option PyFloat) :
    ((mode = "delta" ∨ mode = "logdiff") → lastHighInvalid lkh = true →
      _invert_prediction expf raw lkh mode = .error .inversionError)
    ∧ (_invert_prediction expf raw none "level" = .ok raw)
    ∧ (mode ∉ (["level", "delta", "logdiff"] : List String) →
        ∀ x : ℚ, lkh = some (.fin x) →
        _invert_prediction expf raw lkh mode = .error (.unsupportedMode mode))
    ∧ (mode ≠ "level" → lastHighInvalid lkh = true →
        _invert_prediction expf raw lkh mode = .error .inversionError) := by
  refine ⟨?_, rfl, ?_, ?_⟩
  · rintro (rfl | rfl) hbad <;>
      · cases lkh with
        | none => rfl
        | some x =>
          cases x <;> simp_all [_invert_prediction, lastHighInvalid,
            PyFloat.isFinite]
  · intro hmode x hx
    subst hx
    simp only [List.mem_cons, List.mem_singleton, not_or] at hmode
    obtain ⟨h1, h2, h3, -⟩ := hmode
    simp [_invert_prediction, h1, h2, h3, PyFloat.isFinite]
  · intro hmode hbad
    cases lkh with
    | none => simp [_invert_prediction, hmode]
    | some x =>
      cases x <;> simp_all [_invert_prediction, lastHighInvalid,
        PyFloat.isFinite]

/-- C6, witness: the three amended failure clauses evaluated at concrete
inputs. -/
theorem claim_C6_witness :
    _invert_prediction id 2 none "delta" = .error .inversionError
    ∧ _invert_prediction id 2 none "level" = .ok 2
    ∧ _invert_prediction id 2 (some (.fin 3)) "weird"
        = .error (.unsupportedMode "weird") :=
  ⟨(claim_C6_decode_failures id 2 "delta" none).1 (Or.inl rfl) rfl,
   (claim_C6_decode_failures id 2 "level" none).2.1,
   (claim_C6_decode_failures id 2 "weird" (some (.fin 3))).2.2.1
     (by decide) 3 rfl⟩

/-!
Claim C7 — end-to-end orchestration in delta mode.
-/

instance : Inhabited PredictResponse :=
  ⟨{ predicted_high_next_day := 0, target_mode := "", last_known_high := none,
     features_used := [], feature_vector_tail := [] }⟩

/-- The response the `predict` pipeline computes for the C7 scenario:
25 daily candles with monotonically increasing highs and constant volume,
target mode `delta`, and a stub model capability returning raw output
`1/2`. -/
def c7resp : PredictResponse :=
  (predict id "level" (fun _ => 1/2) (dailySeries 25) (some "delta")).toOption.getD
    default

set_option maxRecDepth 20000 in
/-- C7: on 25 daily candles with monotonically increasing highs and
constant volume, a prediction request with mode `delta` and a stub model
returning raw output `1/2` succeeds and yields
`predicted_high = last_known_high + 1/2` with `last_known_high` the high
of the last candle (124), and the feature row used carries exactly the 15
published fields in published order with no missing values. -/
theorem claim_C7_end_to_end :
    predict id "level" (fun _ => 1/2) (dailySeries 25) (some "delta") = .ok c7resp
    ∧ c7resp.predicted_high_next_day = 124 + 1/2
    ∧ c7resp.last_known_high = some 124
    ∧ (dailySeries 25).getLast?.map (fun r => r.high) = some 124
    ∧ c7resp.feature_vector_tail.map Prod.fst = FINAL_FEATURES
    ∧ c7resp.feature_vector_tail.all (fun p => p.2.isSome) = true
    ∧ c7resp.target_mode = "delta"
    ∧ c7resp.features_used = FINAL_FEATURES := by
  decide

/-!
Claim C2 — normalization ordering and preservation.
-/

/-- C2, amended: whenever normalization succeeds, and for every
`sort_values` implementation satisfying the documented quicksort contract,
the output is non-decreasing by canonical timestamp, is a permutation of
the input records (each annotated as normalization does: time column
parsed, month attached — no record added or dropped), keeps the input
length, and carries a month in 1..12 derived from its own timestamp.  The
claim's remaining conjunct — ties between equal timestamps broken by input
order — is NOT guaranteed: the library default `kind="quicksort"` is
documented as unstable, see the counterexample. -/
theorem claim_C2_normalize_ordering (impl : List Row → List Row)
    (himpl : SortValuesOk impl) (df out mt : List Row)
    (h : ensureTimeAndSortWith impl df = .ok (out, mt)) :
    out.Pairwise (fun a b => keyOf a ≤ keyOf b)
    ∧ out.Perm (df.map fun r => attachMonth (parseTimeCell r))
    ∧ out.length = df.length
    ∧ ∀ r ∈ out, r.month = some (monthOfEpochSec r.timeOpen.d.wall)
        ∧ 1 ≤ monthOfEpochSec r.timeOpen.d.wall
        ∧ monthOfEpochSec r.timeOpen.d.wall ≤ 12 := by
  unfold ensureTimeAndSortWith at h
  split at h
  · exact Except.noConfusion h
  · injection h with h1
    rw [Prod.ext_iff] at h1
    obtain ⟨ho, hm⟩ := h1
    subst ho
    obtain ⟨hperm, hsort⟩ := himpl (df.map parseTimeCell)
    refine ⟨?_, ?_, ?_, ?_⟩
    · exact hsort.map attachMonth fun a b hab => hab
    · have h2 := hperm.map attachMonth
      simpa [List.map_map, Function.comp] using h2
    · have h2 := (hperm.map attachMonth).length_eq
      simpa [List.map_map] using h2
    · intro r hr
      obtain ⟨r', _, rfl⟩ := List.mem_map.1 hr
      exact ⟨rfl, monthOfEpochSec_mem _⟩

/-- Two candles with the SAME timestamp, distinguished by `close`. -/
def c2tieA : Row :=
  { timeOpen := .str ⟨0, none⟩, «open» := 1, high := 1, low := 1, close := 1,
    volume := some 1, month := none }

/-- Second candle of the tied pair. -/
def c2tieB : Row :=
  { timeOpen := .str ⟨0, none⟩, «open» := 1, high := 1, low := 1, close := 2,
    volume := some 1, month := none }

/-- The tied input frame. -/
def c2tiedInput : List Row := [c2tieA, c2tieB]

/-- The tied frame after the in-place time-column parse. -/
def c2parsed : List Row := c2tiedInput.map parseTimeCell

/-- A `sort_values` implementation that satisfies the documented quicksort
contract (sorted permutation) but swaps the tied pair — as numpy's
unstable introsort is free to do. -/
def c2badImpl (l : List Row) : List Row :=
  if l = c2parsed then [parseTimeCell c2tieB, parseTimeCell c2tieA]
  else sortValuesTime l

theorem c2badImpl_ok : SortValuesOk c2badImpl := by
  intro l
  by_cases hl : l = c2parsed
  · subst hl
    constructor
    · decide
    · decide
  · constructor
    · simpa only [c2badImpl, if_neg hl] using (sortValuesTime_ok l).1
    · simpa only [c2badImpl, if_neg hl] using (sortValuesTime_ok l).2

/-- C2, counterexample: the tie-break clause fails.  There is a conforming
`sort_values` implementation (the documented contract of the default
quicksort allows any sorted permutation) under which normalizing two
records with equal timestamps does NOT keep their input order: the output
differs from the stable reference output of `ensure_time_and_sort`. -/
theorem claim_C2_counterexample :
    ¬ (∀ (impl : List Row → List Row), SortValuesOk impl →
        ∀ df out mt out₀ mt₀,
          ensureTimeAndSortWith impl df = .ok (out, mt) →
          ensure_time_and_sort df = .ok (out₀, mt₀) →
          out = out₀) := by
  intro hcl
  have h := hcl c2badImpl c2badImpl_ok c2tiedInput
      [attachMonth (parseTimeCell c2tieB), attachMonth (parseTimeCell c2tieA)]
      c2parsed
      [attachMonth (parseTimeCell c2tieA), attachMonth (parseTimeCell c2tieB)]
      c2parsed
      (by decide) (by decide)
  exact absurd h (by decide)

/-- Normalization outcome on a concrete two-candle unsorted frame. -/
def c2wpair : List Row × List Row :=
  (ensure_time_and_sort [mkDailyCandle 1, mkDailyCandle 0]).toOption.getD ([], [])

/-- C2, witness: the amended ordering theorem applied to the stable
implementation on a concrete out-of-order frame. -/
theorem claim_C2_witness :
    SortValuesOk sortValuesTime
    ∧ (c2wpair.1.Pairwise fun a b => keyOf a ≤ keyOf b)
    ∧ c2wpair.1.Perm ([mkDailyCandle 1, mkDailyCandle 0].map fun r =>
        attachMonth (parseTimeCell r))
    ∧ c2wpair.1.length = [mkDailyCandle 1, mkDailyCandle 0].length := by
  have h := claim_C2_normalize_ordering sortValuesTime sortValuesTime_ok
    [mkDailyCandle 1, mkDailyCandle 0] c2wpair.1 c2wpair.2 (by decide)
  exact ⟨sortValuesTime_ok, h.1, h.2.1, h.2.2.1⟩

/-!
Claim C4 — window resolution.
-/

/-- On a frame sorted by time key, filtering the rows at or before the
anchor keeps exactly the maximal such prefix. -/
theorem sorted_filter_le_eq_takeWhile (anchor : ℤ) :
    ∀ (df : List Row), df.Pairwise (fun a b => keyOf a ≤ keyOf b) →
      df.filter (fun r => decide (keyOf r ≤ anchor))
        = df.takeWhile (fun r => decide (keyOf r ≤ anchor))
  | [], _ => rfl
  | a :: l, hp => by
    obtain ⟨ha, hl⟩ := List.pairwise_cons.1 hp
    by_cases hpa : keyOf a ≤ anchor
    · have hd : decide (keyOf a ≤ anchor) = true := by simpa using hpa
      simp only [List.filter_cons, List.takeWhile_cons, hd, if_true]
      rw [sorted_filter_le_eq_takeWhile anchor l hl]
    · have hnone : ∀ b ∈ l, ¬ (keyOf b ≤ anchor) :=
        fun b hb hle => hpa (le_trans (ha b hb) hle)
      have hd : decide (keyOf a ≤ anchor) = false := by simpa using hpa
      simp only [List.filter_cons, List.takeWhile_cons, hd,
        Bool.false_eq_true, if_false]
      exact List.filter_eq_nil_iff.2 fun b hb => by
        simpa using hnone b hb

/-- C4: on a normalized (time-sorted) series, window resolution returns
exactly the maximal prefix whose timestamps are at or before the anchor,
failing with the no-data error when that prefix is empty and with the
insufficient-history error when it has fewer than 21 entries. -/
theorem claim_C4_window_resolution (df : List Row) (anchor : ℤ)
    (hsorted : df.Pairwise fun a b => keyOf a ≤ keyOf b) :
    window_at_or_before df anchor =
      (let pfx := df.takeWhile fun r => decide (keyOf r ≤ anchor)
       if pfx.isEmpty then .error .noDataBeforeAnchor
       else if pfx.length < 21 then .error .insufficientHistory
       else .ok pfx) := by
  unfold window_at_or_before
  rw [sorted_filter_le_eq_takeWhile anchor df hsorted]

/-- C4, witness: the window theorem applied to a concrete 25-day series;
an anchor inside the data with at least 21 candles before it succeeds with
exactly the prefix at or before it, an anchor before all data yields the
no-data error, and an anchor leaving fewer than 21 candles yields the
insufficient-history error. -/
theorem claim_C4_witness :
    ((dailySeries 25).Pairwise fun a b => keyOf a ≤ keyOf b)
    ∧ window_at_or_before (dailySeries 25) (22 * 86400)
        = .ok ((dailySeries 25).takeWhile fun r => decide (keyOf r ≤ 22 * 86400))
    ∧ ((dailySeries 25).takeWhile fun r => decide (keyOf r ≤ 22 * 86400)).length = 23
    ∧ window_at_or_before (dailySeries 25) (-5) = .error .noDataBeforeAnchor
    ∧ window_at_or_before (dailySeries 25) (10 * 86400)
        = .error .insufficientHistory := by
  refine ⟨by decide, ?_, by decide, by decide, by decide⟩
  have h := claim_C4_window_resolution (dailySeries 25) (22 * 86400) (by decide)
  rw [h]
  decide

/-!
Claim C8 — normalization mutates the caller's frame.
-/

/-- C8, counterexample: the caller's frame after `ensure_time_and_sort` is
NOT the frame it passed in — the `timeOpen` column has been overwritten in
place with parsed datetime values. -/
theorem claim_C8_counterexample :
    (ensure_time_and_sort (dailySeries 2)).toOption.map Prod.snd
      ≠ some (dailySeries 2) := by
  decide

/-- C8, amended: on success the mutation of the caller's frame is exactly
the in-place overwrite of the `timeOpen` column with its parsed values
(assignment of main line `df[time_col] = pd.to_datetime(df[time_col])`):
every other column and the row order of the caller's object are
unchanged, and the sorted, month-annotated result is a new frame. -/
theorem claim_C8_no_mutation (df out mt : List Row)
    (h : ensure_time_and_sort df = .ok (out, mt)) :
    mt = df.map parseTimeCell := by
  unfold ensure_time_and_sort ensureTimeAndSortWith at h
  split at h
  · exact Except.noConfusion h
  · injection h with h1
    rw [Prod.ext_iff] at h1
    exact h1.2.symm

/-- Normalization outcome on a concrete two-candle frame, for the C8
witness. -/
def c8wpair : List Row × List Row :=
  (ensure_time_and_sort (dailySeries 2)).toOption.getD ([], [])

/-- C8, witness: the mutation theorem applied to a concrete frame. -/
theorem claim_C8_witness :
    c8wpair.2 = (dailySeries 2).map parseTimeCell :=
  claim_C8_no_mutation (dailySeries 2) c8wpair.1 c8wpair.2 (by decide)

/-!
Claim C9 — shadowed interval validation in the Kraken fetcher module.
-/

/-- C9: the module's exported `get_recent_candles` (the second textual
definition, which rebinds the name) never fails with the unsupported-
interval error, for any interval whatsoever — the whitelist check lives
only in the shadowed first definition, which does reject e.g. interval 7. -/
theorem claim_C9_shadowed_interval_validation :
    (∀ (token : String) (n interval : ℤ) (rows : List KrakenRawRow) (i : ℤ),
        kraken_get_recent_candles token n interval rows
          ≠ .error (.unsupportedInterval i))
    ∧ get_recent_candles_def1 "SOLUSD" 5 7 []
        = .error (.unsupportedInterval 7) := by
  constructor
  · intro token n interval rows i h
    unfold kraken_get_recent_candles at h
    split at h
    · simp at h
    · split at h
      · simp at h
      · split at h <;> simp at h
  · decide

/-!
Claim C10 — duplicate fetcher equivalence.
-/

/-- When every element converts successfully, the failing loop agrees with
`filterMap`. -/
theorem mapOrFail_eq_some_of_all (f : α → Option β) :
    ∀ (l : List α), (l.all fun a => (f a).isSome) = true →
      mapOrFail f l = some (l.filterMap f)
  | [], _ => rfl
  | a :: l, h => by
    simp only [List.all_cons, Bool.and_eq_true] at h
    obtain ⟨b, hb⟩ := Option.isSome_iff_exists.1 h.1
    simp [mapOrFail, hb, mapOrFail_eq_some_of_all f l h.2,
      List.filterMap_cons]

/-- When some element fails to convert, the failing loop fails. -/
theorem mapOrFail_eq_none_of_not_all (f : α → Option β) :
    ∀ (l : List α), ¬ ((l.all fun a => (f a).isSome) = true) →
      mapOrFail f l = none
  | [], h => absurd rfl h
  | a :: l, h => by
    simp only [List.all_cons, Bool.and_eq_true, not_and] at h
    cases hfa : f a with
    | none => simp [mapOrFail, hfa]
    | some b =>
      have : ¬ ((l.all fun a => (f a).isSome) = true) :=
        h (by simp [hfa])
      simp [mapOrFail, hfa, mapOrFail_eq_none_of_not_all f l this]

/-- C10, amended: for every positive requested count `n`, whenever each of
the last `n` payload rows parses, the exported Kraken fetcher and the
sol_fetch fetcher return equal results (the same errors included); and on
such inputs with a valid token and a non-empty payload they diverge
exactly when some sliced row is malformed — the former silently skips it,
the latter fails.  (For `n ≤ 0` they differ even on well-formed rows: the
Kraken fetcher returns `[]` early while sol_fetch slices `rows[-n:]`; see
the counterexample.) -/
theorem claim_C10_fetcher_equivalence (token : String) (n interval : ℤ)
    (rows : List KrakenRawRow) (hn : 1 ≤ n) :
    ((((pySliceLast rows n).all fun r => (parseKrakenRow r).isSome) = true) →
      kraken_get_recent_candles token n interval rows
        = sol_get_recent_candles token n interval rows)
    ∧ ((¬ (((pySliceLast rows n).all fun r => (parseKrakenRow r).isSome) = true)) →
       (_kraken_pair token).isSome = true → rows ≠ [] →
       kraken_get_recent_candles token n interval rows
          = .ok (sortByTimeOpen ((pySliceLast rows n).filterMap parseKrakenRow))
        ∧ sol_get_recent_candles token n interval rows = .error .malformedRow) := by
  have hn0 : ¬ n ≤ 0 := by omega
  constructor
  · intro hall
    unfold kraken_get_recent_candles sol_get_recent_candles
    rw [if_neg hn0]
    cases hp : _kraken_pair token with
    | none => rfl
    | some p =>
      by_cases hre : rows.isEmpty
      · simp [hre]
      · simp [hre, mapOrFail_eq_some_of_all _ _ hall]
  · intro hbad hp hrows
    obtain ⟨p, hp'⟩ := Option.isSome_iff_exists.1 hp
    have hre : rows.isEmpty = false := by
      cases rows with
      | nil => exact absurd rfl hrows
      | cons a l => rfl
    constructor
    · unfold kraken_get_recent_candles
      rw [if_neg hn0, hp']
      simp [hre]
    · unfold sol_get_recent_candles
      rw [hp']
      simp [hre, mapOrFail_eq_none_of_not_all _ _ hbad]

/-- A well-formed Kraken payload row. -/
def c10rowA : KrakenRawRow :=
  { time := some 86400, «open» := some 1, high := some 2, low := some 1,
    close := some 2, volume := some 3 }

/-- Another well-formed Kraken payload row, earlier in time. -/
def c10rowB : KrakenRawRow :=
  { time := some 0, «open» := some 2, high := some 3, low := some 1,
    close := some 1, volume := some 4 }

/-- C10, counterexample: the claimed equivalence fails outside positive
counts even though every row parses — at `n = 0` the exported Kraken
fetcher returns `[]` (its `n <= 0` early return) while sol_fetch, which
has no such guard, slices `rows[-0:] = rows` and returns every parsed
row. -/
theorem claim_C10_counterexample :
    (((pySliceLast [c10rowA] (0 : ℤ)).all fun r => (parseKrakenRow r).isSome) = true)
    ∧ kraken_get_recent_candles "SOLUSD" 0 1440 [c10rowA]
        ≠ sol_get_recent_candles "SOLUSD" 0 1440 [c10rowA] := by
  decide

/-- C10, witness: the equivalence theorem applied to a concrete payload of
two well-formed rows, requested count 2. -/
theorem claim_C10_witness :
    (1 : ℤ) ≤ 2
    ∧ (((pySliceLast [c10rowA, c10rowB] (2 : ℤ)).all fun r =>
          (parseKrakenRow r).isSome) = true)
    ∧ kraken_get_recent_candles "SOLUSD" 2 1440 [c10rowA, c10rowB]
        = sol_get_recent_candles "SOLUSD" 2 1440 [c10rowA, c10rowB] :=
  ⟨by decide, by decide,
   (claim_C10_fetcher_equivalence "SOLUSD" 2 1440 [c10rowA, c10rowB]
      (by decide)).1 (by decide)⟩

end ConcreteEvaluation

end SolPredict
